import Mathlib

/-!
Command dispatch and response status interpretation of `Robot::Impl`.

A shallow embedding of `src/src/robot_impl.h` (libfranka): the status
interpreters `handleBaseCommandResponse` (setter and non-setter overloads),
`handleCommandResponse` (generic template and its `Move` specialization) and
the dispatcher `executeCommand` (generic template and its
`GetCartesianLimit` specialization).

`finishMotion` is only declared in `robot_impl.h`; it and the bookkeeping of the
active motion are modelled from the specification, in a section of their own.

Member functions of `Robot::Impl` are computations over the object state that
may throw: a member function returning `α` is a function
`Impl σ → Except Exception α × Impl σ` (the type `M σ α`): the outcome, and the
object state when the function is left.
-/

namespace franka

/-! ## Data model -/

/-- The value of `response.status`.  The enumerations `T::Status` are declared in
`research_interface/robot/service_types.h`; a status is represented by the
enumerator that the `case` labels of `robot_impl.h` name, and `unlisted code`
is any received code that none of those enumerators denotes. -/
inductive Status where
  | kSuccess
  | kCommandNotPossibleRejected
  | kInvalidArgumentRejected
  | kMotionStarted
  | kEmergencyAborted
  | kReflexAborted
  | kInputErrorAborted
  | kStartAtSingularPoseRejected
  | kOutOfRangeRejected
  | kPreempted
  | unlisted (code : Nat)
  deriving DecidableEq, Repr

/-- The two exception classes thrown by `robot_impl.h`, with their `what()` text. -/
inductive Exception where
  | CommandException (what : String)
  | ProtocolException (what : String)
  deriving DecidableEq, Repr

/-- A command type `T` as the templates of `robot_impl.h` see it:
`Move` selects the explicit specialization of `handleCommandResponse`; every
other type goes through `handleBaseCommandResponse`, with the overload chosen by
`is_setter` (`std::is_base_of<SetterCommandBase<T, T::kCommand>, T>`).
`kName` is `CommandTraits<T>::kName`. -/
inductive CommandKind where
  | Move (kName : String)
  | base (kName : String) (is_setter : Bool)
  deriving DecidableEq, Repr

/-- The part of `T::Response` that every command type has. -/
structure Response where
  status : Status
  deriving DecidableEq, Repr

/-- A `double`, kept as its 64-bit pattern: `robot_impl.h` only copies doubles. -/
abbrev Double := Nat

/-- `GetCartesianLimit::Response`: the status and the payload fields read by
`executeCommand<GetCartesianLimit, int32_t, VirtualWallCuboid*>`. -/
structure GetCartesianLimitResponse where
  status : Status
  object_frame : List Double
  object_p_max : List Double
  object_p_min : List Double
  object_activation : Bool
  deriving DecidableEq, Repr

/-- The output record `VirtualWallCuboid` written through the pointer argument. -/
structure VirtualWallCuboid where
  id : Int
  p_frame : List Double
  p_min : List Double
  p_max : List Double
  active : Bool
  deriving DecidableEq, Repr

/-- The argument pack `TArgs... args` of a request, forwarded as it is to the
transport. -/
abbrev Args := List Int

/-- One operation performed on `network_`. -/
inductive NetOp where
  | tcpSendRequest (T : CommandKind) (args : Args) (command_id : Nat)
  | tcpBlockingReceiveResponse (T : CommandKind) (command_id : Nat)
  deriving DecidableEq, Repr

/-- The transport `Network` (declared in `network.h`), over its own state `σ`:
what `tcpSendRequest<T>(args...)` returns and what
`tcpBlockingReceiveResponse<T>(command_id)` returns, the latter once for the
plain responses and once for `GetCartesianLimit::Response`.  Both calls are taken
as `robot_impl.h` uses them, by the value they return; a call that does not come
back (a failure inside the transport) is outside this development. -/
structure Network (σ : Type) where
  tcpSendRequest : CommandKind → Args → σ → Nat × σ
  tcpBlockingReceiveResponse : CommandKind → Nat → σ → Response × σ
  tcpBlockingReceiveResponseGetCartesianLimit :
    CommandKind → Nat → σ → GetCartesianLimitResponse × σ

/-- The state of a `Robot::Impl` object: the transport behind `network_`, the
list of operations performed on it so far (`network_log`, oldest first), and the
data members `realtime_config_`, `ri_version_`, `motion_generator_mode_`,
`controller_mode_` and `message_id_` (enumerations as their numeric values). -/
structure Impl (σ : Type) where
  network_ : σ
  network_log : List NetOp
  realtime_config_ : Nat
  ri_version_ : Nat
  motion_generator_mode_ : Nat
  controller_mode_ : Nat
  message_id_ : Nat

/-- What `robot_impl.h` uses of the rest of the class: the behaviour of the
transport and the `const noexcept` member `motionGeneratorRunning()`, whose body is
in `robot_impl.cpp`. -/
structure Env (σ : Type) where
  network : Network σ
  motionGeneratorRunning : Impl σ → Bool

/-- A member function of `Robot::Impl` returning `α`. -/
abbrev M (σ : Type) (α : Type) := Impl σ → Except Exception α × Impl σ

/-- Normal return. -/
def M.ret {σ α : Type} (a : α) : M σ α := fun self => (.ok a, self)

/-- The statement `throw e`. -/
def M.raise {σ α : Type} (e : Exception) : M σ α := fun self => (.error e, self)

/-! ## Status interpretation -/

/-- `Robot::Impl::handleBaseCommandResponse<T>(response, std::true_type)`. -/
def handleBaseCommandResponse_true {σ : Type} (kName : String) (response : Response) :
    M σ Unit :=
  match response.status with
  | .kSuccess => M.ret ()
  | .kCommandNotPossibleRejected =>
      M.raise (.CommandException ("libfranka: " ++ kName ++
        " command rejected: command not possible in the current mode!"))
  | .kInvalidArgumentRejected =>
      M.raise (.CommandException ("libfranka: " ++ kName ++
        " command rejected: invalid argument!"))
  | _ =>
      M.raise (.ProtocolException ("libfranka: Unexpected response while handling " ++
        kName ++ " command!"))

/-- `Robot::Impl::handleBaseCommandResponse<T>(response, std::false_type)`. -/
def handleBaseCommandResponse_false {σ : Type} (kName : String) (response : Response) :
    M σ Unit :=
  match response.status with
  | .kSuccess => M.ret ()
  | .kCommandNotPossibleRejected =>
      M.raise (.CommandException ("libfranka: " ++ kName ++
        " command rejected: command not possible in the current mode!"))
  | _ =>
      M.raise (.ProtocolException ("libfranka: Unexpected response while handling " ++
        kName ++ " command!"))

/-- `Robot::Impl::handleCommandResponse<research_interface::robot::Move>`. -/
def handleCommandResponse_Move {σ : Type} (env : Env σ) (kName : String)
    (response : Response) : M σ Unit :=
  match response.status with
  | .kSuccess => M.ret ()
  | .kMotionStarted => fun self =>
      if env.motionGeneratorRunning self then
        M.raise (.ProtocolException ("libfranka: " ++ kName ++
          " received unexpected motion started message.")) self
      else M.ret () self
  | .kEmergencyAborted =>
      M.raise (.CommandException ("libfranka: " ++ kName ++
        " command aborted: User Stop pressed!"))
  | .kReflexAborted =>
      M.raise (.CommandException ("libfranka: " ++ kName ++
        " command aborted: motion aborted by reflex!"))
  | .kInputErrorAborted =>
      M.raise (.CommandException ("libfranka: " ++ kName ++
        " command aborted: invalid input provided!"))
  | .kCommandNotPossibleRejected =>
      M.raise (.CommandException ("libfranka: " ++ kName ++
        " command rejected: command not possible in the current mode!"))
  | .kStartAtSingularPoseRejected =>
      M.raise (.CommandException ("libfranka: " ++ kName ++
        " command rejected: cannot start at singular pose!"))
  | .kOutOfRangeRejected =>
      M.raise (.CommandException ("libfranka: " ++ kName ++
        " command rejected: maximum path deviation out of range!"))
  | .kPreempted =>
      M.raise (.CommandException ("libfranka: " ++ kName ++ " command preempted!"))
  | _ =>
      M.raise (.ProtocolException ("libfranka: Unexpected response while handling " ++
        kName ++ " command!"))

/-- `Robot::Impl::handleCommandResponse<T>`: the `Move` specialization for `Move`,
otherwise the overload of `handleBaseCommandResponse<T>` selected by `is_setter`. -/
def handleCommandResponse {σ : Type} (env : Env σ) (T : CommandKind)
    (response : Response) : M σ Unit :=
  match T with
  | .Move kName => handleCommandResponse_Move env kName response
  | .base kName true => handleBaseCommandResponse_true kName response
  | .base kName false => handleBaseCommandResponse_false kName response

/-! ## Transport calls -/

/-- The call `network_->tcpSendRequest<T>(args...)`: the returned command id and
the object state after the call. -/
def tcpSendRequest {σ : Type} (env : Env σ) (T : CommandKind) (args : Args)
    (self : Impl σ) : Nat × Impl σ :=
  let r := env.network.tcpSendRequest T args self.network_
  (r.1, { self with
    network_ := r.2
    network_log := self.network_log ++ [NetOp.tcpSendRequest T args r.1] })

/-- The call `network_->tcpBlockingReceiveResponse<T>(command_id)`: the returned
response and the object state after the call. -/
def tcpBlockingReceiveResponse {σ : Type} (env : Env σ) (T : CommandKind)
    (command_id : Nat) (self : Impl σ) : Response × Impl σ :=
  let r := env.network.tcpBlockingReceiveResponse T command_id self.network_
  (r.1, { self with
    network_ := r.2
    network_log := self.network_log ++ [NetOp.tcpBlockingReceiveResponse T command_id] })

/-- The call `network_->tcpBlockingReceiveResponse<GetCartesianLimit>(command_id)`. -/
def tcpBlockingReceiveResponseGetCartesianLimit {σ : Type} (env : Env σ)
    (T : CommandKind) (command_id : Nat) (self : Impl σ) :
    GetCartesianLimitResponse × Impl σ :=
  let r := env.network.tcpBlockingReceiveResponseGetCartesianLimit T command_id
    self.network_
  (r.1, { self with
    network_ := r.2
    network_log := self.network_log ++ [NetOp.tcpBlockingReceiveResponse T command_id] })

/-! ## Command dispatch -/

/-- `Robot::Impl::executeCommand<T, TArgs...>(args...)`: send, blocking receive,
status interpretation, `return command_id`; an exception of the interpretation
leaves the function before the `return`. -/
def executeCommand {σ : Type} (env : Env σ) (T : CommandKind) (args : Args) : M σ Nat :=
  fun self =>
    let sent := tcpSendRequest env T args self
    let command_id := sent.1
    let received := tcpBlockingReceiveResponse env T command_id sent.2
    let response := received.1
    match handleCommandResponse env T response received.2 with
    | (.error e, self3) => (.error e, self3)
    | (.ok (), self3) => (.ok command_id, self3)

/-- `Robot::Impl::executeCommand<GetCartesianLimit, int32_t, VirtualWallCuboid*>`.
`GetCartesianLimit` is the command type `.base kName is_setter`.  The record behind
the pointer `virtual_wall_cuboid` is an argument, and its content when the function
is left (by `return` or by an exception) is returned next to the outcome. -/
def executeCommand_GetCartesianLimit {σ : Type} (env : Env σ) (kName : String)
    (is_setter : Bool) (id : Int) (virtual_wall_cuboid : VirtualWallCuboid)
    (self : Impl σ) : (Except Exception Nat × Impl σ) × VirtualWallCuboid :=
  let GetCartesianLimit := CommandKind.base kName is_setter
  let sent := tcpSendRequest env GetCartesianLimit [id] self
  let command_id := sent.1
  let received :=
    tcpBlockingReceiveResponseGetCartesianLimit env GetCartesianLimit command_id sent.2
  let response := received.1
  let cuboid1 := { virtual_wall_cuboid with p_frame := response.object_frame }
  let cuboid2 := { cuboid1 with p_max := response.object_p_max }
  let cuboid3 := { cuboid2 with p_min := response.object_p_min }
  let cuboid4 := { cuboid3 with active := response.object_activation }
  let cuboid5 := { cuboid4 with id := id }
  match handleCommandResponse env GetCartesianLimit ⟨response.status⟩ received.2 with
  | (.error e, self3) => ((.error e, self3), cuboid5)
  | (.ok (), self3) => ((.ok command_id, self3), cuboid5)

/-! ## A concrete object, for evaluating the definitions -/

/-- A transport whose state is the number of requests sent so far: the n-th
request gets command id `n`, every plain response has the status `status`, and
the `GetCartesianLimit` response is `limit`. -/
def countingNetwork (status : Status) (limit : GetCartesianLimitResponse) : Network Nat where
  tcpSendRequest := fun _ _ n => (n, n + 1)
  tcpBlockingReceiveResponse := fun _ _ n => (⟨status⟩, n)
  tcpBlockingReceiveResponseGetCartesianLimit := fun _ _ n => (limit, n)

/-- A `GetCartesianLimit` response with the given status and a fixed payload. -/
def sampleLimit (status : Status) : GetCartesianLimitResponse where
  status := status
  object_frame := [1, 0, 0, 0, 0, 1, 0, 0, 0, 0, 1, 0, 0, 0, 0, 1]
  object_p_max := [5, 6, 7]
  object_p_min := [2, 3, 4]
  object_activation := true

/-- An environment over `countingNetwork` in which a motion generator counts as
running when `motion_generator_mode_` is not `0`. -/
def sampleEnv (status : Status) : Env Nat where
  network := countingNetwork status (sampleLimit status)
  motionGeneratorRunning := fun self => self.motion_generator_mode_ != 0

/-- An object with `motion_generator_mode_ = mode`, whose next command id is `7`. -/
def sampleImpl (mode : Nat) : Impl Nat where
  network_ := 7
  network_log := []
  realtime_config_ := 0
  ri_version_ := 1
  motion_generator_mode_ := mode
  controller_mode_ := 0
  message_id_ := 100

/-- The seven abort and reject statuses of the `Move` vocabulary. -/
def moveAbortStatuses : List Status :=
  [.kEmergencyAborted, .kReflexAborted, .kInputErrorAborted, .kCommandNotPossibleRejected,
   .kStartAtSingularPoseRejected, .kOutOfRangeRejected, .kPreempted]

/-- The nine statuses of the `Move` vocabulary. -/
def moveVocabulary : List Status :=
  [.kSuccess, .kMotionStarted] ++ moveAbortStatuses

/-- The texts that follow `"libfranka: " + kName` in the seven `CommandException`s of
the `Move` specialization, in the order of `moveAbortStatuses`. -/
def moveAbortTexts : List String :=
  [" command aborted: User Stop pressed!",
   " command aborted: motion aborted by reflex!",
   " command aborted: invalid input provided!",
   " command rejected: command not possible in the current mode!",
   " command rejected: cannot start at singular pose!",
   " command rejected: maximum path deviation out of range!",
   " command preempted!"]

/-! ## The motion lifecycle, from the specification

`robot_impl.h` only declares `finishMotion`; its body, and the bookkeeping of the
active motion, are in `robot_impl.cpp`.  The definitions of this section follow the
words of the specification (§3, §4.2, §4.4, §6). -/

/-- Modelled from the spec: the record ActiveMotion of the data model (§3),
"{motion_id, generator_mode, controller_mode, path_deviation_limits,
goal_deviation_limits}", which `robot_impl.h` does not declare. -/
structure ActiveMotion where
  motion_id : Nat
  generator_mode : Nat
  controller_mode : Nat
  path_deviation_limits : List Double
  goal_deviation_limits : List Double
  deriving DecidableEq, Repr

/-- Modelled from the spec: the states of the motion lifecycle controller (§4.4),
"Idle → Starting → Running → {Finishing | Cancelling} → Idle", which `robot_impl.h`
does not declare. -/
inductive LifecycleState where
  | Idle
  | Starting
  | Running
  | Finishing
  | Cancelling
  deriving DecidableEq, Repr

/-- Modelled from the spec: the motion lifecycle controller (§4.4) of a `Robot::Impl`
object, missing from `robot_impl.h`: the object, the state of the lifecycle and the
single ActiveMotion, `none` when it is absent. -/
structure Lifecycle (σ : Type) where
  impl : Impl σ
  state : LifecycleState
  active_motion : Option ActiveMotion

/-- Modelled from the spec: the body of `motionGeneratorRunning()`, which is in
`robot_impl.cpp`: a motion is "currently recorded as running" (§4.2) when an
ActiveMotion is present. -/
def Lifecycle.motionGeneratorRunning {σ : Type} (self : Lifecycle σ) : Bool :=
  self.active_motion.isSome

/-- Modelled from the spec: the transport as the lifecycle controller consumes it
(§6), of which `robot_impl.h` shows only the request and response calls: these calls
(`network`) and the periodic exchange primitive, as the effect that sending a command
pair has on the transport. -/
structure Transport (σ : Type) where
  network : Network σ
  sendCommandPair : Option Args → Option Args → σ → σ

/-- Modelled from the spec: the body of `finishMotion(id, finalMotionCommand,
finalControlCommand)`, declared at `robot_impl.h:46-48` and defined in
`robot_impl.cpp`.  By §4.4 it "sends the final command pair, awaits the controller's
terminal acknowledgement, clears ActiveMotion, transitions to Idle unconditionally —
even if the terminal acknowledgement itself reports a fault [...], the fault is
surfaced to the caller but cleanup still proceeds".  The terminal acknowledgement is
the `Move` response received for `motion_id`, and its status is interpreted by
`handleCommandResponse<Move>` of `robot_impl.h`, which asks
`motionGeneratorRunning()` of the object as it is before the cleanup. -/
def finishMotion {σ : Type} (transport : Transport σ) (kName : String) (motion_id : Nat)
    (motion_command control_command : Option Args) (self : Lifecycle σ) :
    Except Exception Unit × Lifecycle σ :=
  let env : Env σ :=
    { network := transport.network
      motionGeneratorRunning := fun _ => self.motionGeneratorRunning }
  let sent : Impl σ :=
    { self.impl with
      network_ := transport.sendCommandPair motion_command control_command
        self.impl.network_ }
  let received := tcpBlockingReceiveResponse env (.Move kName) motion_id sent
  let outcome := handleCommandResponse env (.Move kName) received.1 received.2
  (outcome.1, { impl := outcome.2, state := .Idle, active_motion := none })

/-- A transport over `countingNetwork` on which sending a command pair changes
nothing. -/
def sampleTransport (status : Status) : Transport Nat where
  network := countingNetwork status (sampleLimit status)
  sendCommandPair := fun _ _ n => n

/-- A lifecycle controller in state Running whose ActiveMotion has `motion_id = 7`. -/
def sampleLifecycle : Lifecycle Nat where
  impl := { sampleImpl 1 with network_ := 8 }
  state := .Running
  active_motion := some ⟨7, 1, 0, [], []⟩

/-! ## Auxiliary facts -/

theorem string_append_left_injective (p : String) :
    Function.Injective (fun t : String => p ++ t) := by
  intro a b h
  have h2 : (p ++ a).data = (p ++ b).data := congrArg String.data h
  rw [String.data_append, String.data_append] at h2
  exact String.ext (List.append_cancel_left h2)

theorem moveAbortTexts_nodup : moveAbortTexts.Nodup := by
  decide

/-! ## Status interpretation: setter and non-setter command types -/

/-- C1, as the code has it: for a setter command type, `handleCommandResponse`
returns normally iff the status is success, raises `CommandException` iff the status
is command-not-possible-rejected or invalid-argument-rejected, and raises
`ProtocolException` iff the status is none of these three. -/
theorem handleCommandResponse_setter_outcome {σ : Type} (env : Env σ) (kName : String)
    (response : Response) (self : Impl σ) :
    ((handleCommandResponse env (.base kName true) response self).1 = .ok ()
        ↔ response.status = .kSuccess) ∧
    ((∃ w, (handleCommandResponse env (.base kName true) response self).1
          = .error (.CommandException w))
        ↔ (response.status = .kCommandNotPossibleRejected ∨
           response.status = .kInvalidArgumentRejected)) ∧
    ((∃ w, (handleCommandResponse env (.base kName true) response self).1
          = .error (.ProtocolException w))
        ↔ (response.status ≠ .kSuccess ∧
           response.status ≠ .kCommandNotPossibleRejected ∧
           response.status ≠ .kInvalidArgumentRejected)) := by
  obtain ⟨st⟩ := response
  cases st <;>
    simp [handleCommandResponse, handleBaseCommandResponse_true, M.ret, M.raise]

/-- C1 fails as stated: for the setter command type named "Set Collision Behavior",
a response with status invalid-argument-rejected raises `CommandException`, not
`ProtocolException`, although the status is not command-not-possible-rejected. -/
theorem setter_invalid_argument_is_command_exception :
    (handleCommandResponse (sampleEnv .kSuccess) (.base "Set Collision Behavior" true)
        ⟨.kInvalidArgumentRejected⟩ (sampleImpl 0)).1
      = .error (.CommandException
          "libfranka: Set Collision Behavior command rejected: invalid argument!") ∧
    (¬ ∃ w, (handleCommandResponse (sampleEnv .kSuccess)
        (.base "Set Collision Behavior" true) ⟨.kInvalidArgumentRejected⟩ (sampleImpl 0)).1
      = .error (.ProtocolException w)) ∧
    Status.kInvalidArgumentRejected ≠ Status.kCommandNotPossibleRejected := by
  refine ⟨rfl, ?_, by decide⟩
  rintro ⟨w, h⟩
  simp [handleCommandResponse, handleBaseCommandResponse_true, M.raise] at h

/-- C2, as the code has it: for a non-setter command type other than `Move`,
`handleCommandResponse` returns normally iff the status is success, raises
`CommandException` iff the status is command-not-possible-rejected, and raises
`ProtocolException` iff the status is neither; invalid-argument-rejected is among
the statuses that raise `ProtocolException`. -/
theorem handleCommandResponse_non_setter_outcome {σ : Type} (env : Env σ) (kName : String)
    (response : Response) (self : Impl σ) :
    ((handleCommandResponse env (.base kName false) response self).1 = .ok ()
        ↔ response.status = .kSuccess) ∧
    ((∃ w, (handleCommandResponse env (.base kName false) response self).1
          = .error (.CommandException w))
        ↔ response.status = .kCommandNotPossibleRejected) ∧
    ((∃ w, (handleCommandResponse env (.base kName false) response self).1
          = .error (.ProtocolException w))
        ↔ (response.status ≠ .kSuccess ∧
           response.status ≠ .kCommandNotPossibleRejected)) ∧
    (handleCommandResponse env (.base kName false) ⟨.kInvalidArgumentRejected⟩ self).1
      = .error (.ProtocolException
          ("libfranka: Unexpected response while handling " ++ kName ++ " command!")) := by
  obtain ⟨st⟩ := response
  cases st <;>
    simp [handleCommandResponse, handleBaseCommandResponse_false, M.ret, M.raise]

/-- C2 fails as stated: for the non-setter command type named "Get Cartesian Limit",
a response with status invalid-argument-rejected raises `ProtocolException`, not
`CommandException`. -/
theorem non_setter_invalid_argument_is_protocol_exception :
    (handleCommandResponse (sampleEnv .kSuccess) (.base "Get Cartesian Limit" false)
        ⟨.kInvalidArgumentRejected⟩ (sampleImpl 0)).1
      = .error (.ProtocolException
          "libfranka: Unexpected response while handling Get Cartesian Limit command!") ∧
    ¬ ∃ w, (handleCommandResponse (sampleEnv .kSuccess)
        (.base "Get Cartesian Limit" false) ⟨.kInvalidArgumentRejected⟩ (sampleImpl 0)).1
      = .error (.CommandException w) := by
  refine ⟨rfl, ?_⟩
  rintro ⟨w, h⟩
  simp [handleCommandResponse, handleBaseCommandResponse_false, M.raise] at h

/-! ## Status interpretation: the `Move` specialization -/

/-- C3, as the code has it: in every state in which no motion generator is running,
interpreting a `Move` response with status motion-started returns normally and leaves
the object as it was; it raises neither `ProtocolException` nor `CommandException`. -/
theorem move_motion_started_accepted_when_idle {σ : Type} (env : Env σ) (kName : String)
    (self : Impl σ) (h : env.motionGeneratorRunning self = false) :
    handleCommandResponse env (.Move kName) ⟨.kMotionStarted⟩ self = (.ok (), self) := by
  simp [handleCommandResponse, handleCommandResponse_Move, M.ret, h]

/-- Witness of `move_motion_started_accepted_when_idle`: the sample object with
`motion_generator_mode_ = 0`. -/
theorem move_motion_started_accepted_when_idle_witness :
    (sampleEnv .kSuccess).motionGeneratorRunning (sampleImpl 0) = false ∧
    handleCommandResponse (sampleEnv .kSuccess) (.Move "Move") ⟨.kMotionStarted⟩
        (sampleImpl 0) = (.ok (), sampleImpl 0) :=
  ⟨rfl, move_motion_started_accepted_when_idle (sampleEnv .kSuccess) "Move" (sampleImpl 0)
    rfl⟩

/-- C3 fails as stated: in the sample object with `motion_generator_mode_ = 0` no
motion generator is running, and a `Move` response with status motion-started returns
normally instead of raising `ProtocolException`. -/
theorem move_motion_started_idle_no_protocol_exception :
    (sampleEnv .kSuccess).motionGeneratorRunning (sampleImpl 0) = false ∧
    (handleCommandResponse (sampleEnv .kSuccess) (.Move "Move") ⟨.kMotionStarted⟩
        (sampleImpl 0)).1 = .ok () ∧
    ¬ ∃ w, (handleCommandResponse (sampleEnv .kSuccess) (.Move "Move") ⟨.kMotionStarted⟩
        (sampleImpl 0)).1 = .error (.ProtocolException w) := by
  refine ⟨rfl, rfl, ?_⟩
  rintro ⟨w, h⟩
  simp [handleCommandResponse, handleCommandResponse_Move, M.ret, sampleEnv, sampleImpl] at h

/-- C4: interpreting a `Move` response with status motion-started raises
`ProtocolException` iff a motion generator is running, and returns normally iff none
is running; it never raises `CommandException`. -/
theorem move_motion_started_protocol_iff_running {σ : Type} (env : Env σ)
    (kName : String) (self : Impl σ) :
    ((∃ w, (handleCommandResponse env (.Move kName) ⟨.kMotionStarted⟩ self).1
          = .error (.ProtocolException w))
        ↔ env.motionGeneratorRunning self = true) ∧
    ((handleCommandResponse env (.Move kName) ⟨.kMotionStarted⟩ self).1 = .ok ()
        ↔ env.motionGeneratorRunning self = false) ∧
    (¬ ∃ w, (handleCommandResponse env (.Move kName) ⟨.kMotionStarted⟩ self).1
          = .error (.CommandException w)) := by
  cases h : env.motionGeneratorRunning self <;>
    simp [handleCommandResponse, handleCommandResponse_Move, M.ret, M.raise, h]

/-- C5: for `Move`, the seven abort and reject statuses raise `CommandException`s
whose seven messages are pairwise distinct, success returns normally, and every
status outside the nine-element vocabulary raises `ProtocolException`. -/
theorem move_vocabulary_outcomes {σ : Type} (env : Env σ) (kName : String)
    (self : Impl σ) :
    (moveAbortStatuses.map
        (fun st => (handleCommandResponse env (.Move kName) ⟨st⟩ self).1)
      = (moveAbortTexts.map (fun t => "libfranka: " ++ kName ++ t)).map
          (fun w => .error (.CommandException w))) ∧
    (moveAbortTexts.map (fun t => "libfranka: " ++ kName ++ t)).Nodup ∧
    (moveAbortTexts.map (fun t => "libfranka: " ++ kName ++ t)).length = 7 ∧
    moveAbortStatuses.Nodup ∧
    (handleCommandResponse env (.Move kName) ⟨.kSuccess⟩ self).1 = .ok () ∧
    (∀ st, st ∉ moveVocabulary →
      (handleCommandResponse env (.Move kName) ⟨st⟩ self).1
        = .error (.ProtocolException
            ("libfranka: Unexpected response while handling " ++ kName ++ " command!"))) := by
  refine ⟨rfl, ?_, rfl, by decide, rfl, ?_⟩
  · exact moveAbortTexts_nodup.map (string_append_left_injective ("libfranka: " ++ kName))
  · intro st hst
    cases st <;>
      simp [moveVocabulary, moveAbortStatuses] at hst <;>
      simp [handleCommandResponse, handleCommandResponse_Move, M.raise]

/-! ## Command dispatch -/

/-- The interpreter hands the object back as it got it, whatever the outcome. -/
theorem handleCommandResponse_state {σ : Type} (env : Env σ) (T : CommandKind)
    (response : Response) (self : Impl σ) :
    (handleCommandResponse env T response self).2 = self := by
  obtain ⟨st⟩ := response
  rcases T with kName | ⟨kName, _ | _⟩
  · cases st <;>
      simp [handleCommandResponse, handleCommandResponse_Move, M.ret, M.raise]
    split <;> rfl
  · cases st <;>
      simp [handleCommandResponse, handleBaseCommandResponse_false, M.ret, M.raise]
  · cases st <;>
      simp [handleCommandResponse, handleBaseCommandResponse_true, M.ret, M.raise]

/-- The outcome of `executeCommand` in terms of the outcome of the interpretation of
the received response. -/
theorem executeCommand_outcome {σ : Type} (env : Env σ) (T : CommandKind) (args : Args)
    (self : Impl σ) :
    (executeCommand env T args self).1 =
      match (handleCommandResponse env T
          (tcpBlockingReceiveResponse env T (tcpSendRequest env T args self).1
            (tcpSendRequest env T args self).2).1
          (tcpBlockingReceiveResponse env T (tcpSendRequest env T args self).1
            (tcpSendRequest env T args self).2).2).1 with
      | .ok () => .ok (tcpSendRequest env T args self).1
      | .error e => .error e := by
  simp only [executeCommand]
  split <;> rename_i h <;> simp [h]

/-- The outcome of the `GetCartesianLimit` variant of `executeCommand` in terms of the
outcome of the interpretation of the received response. -/
theorem executeCommand_GetCartesianLimit_outcome {σ : Type} (env : Env σ)
    (kName : String) (is_setter : Bool) (id : Int) (cuboid : VirtualWallCuboid)
    (self : Impl σ) :
    (executeCommand_GetCartesianLimit env kName is_setter id cuboid self).1.1 =
      match (handleCommandResponse env (.base kName is_setter)
          ⟨(tcpBlockingReceiveResponseGetCartesianLimit env (.base kName is_setter)
            (tcpSendRequest env (.base kName is_setter) [id] self).1
            (tcpSendRequest env (.base kName is_setter) [id] self).2).1.status⟩
          (tcpBlockingReceiveResponseGetCartesianLimit env (.base kName is_setter)
            (tcpSendRequest env (.base kName is_setter) [id] self).1
            (tcpSendRequest env (.base kName is_setter) [id] self).2).2).1 with
      | .ok () => .ok (tcpSendRequest env (.base kName is_setter) [id] self).1
      | .error e => .error e := by
  simp only [executeCommand_GetCartesianLimit]
  split <;> rename_i h <;> simp [h]

/-- C6: for every command type and arguments, the generic `executeCommand` and its
`GetCartesianLimit` specialization alike: `executeCommand` returns a value iff the
interpreter accepts the received response, the value returned is the command id that
the send of this request returned, and if the interpreter raises an exception
`executeCommand` raises the same one (and so returns no id). -/
theorem executeCommand_returns_send_id {σ : Type} (env : Env σ) (T : CommandKind)
    (args : Args) (kName : String) (is_setter : Bool) (id : Int)
    (cuboid : VirtualWallCuboid) (self : Impl σ) :
    (((∃ v, (executeCommand env T args self).1 = .ok v)
      ↔ (handleCommandResponse env T
          (tcpBlockingReceiveResponse env T (tcpSendRequest env T args self).1
            (tcpSendRequest env T args self).2).1
          (tcpBlockingReceiveResponse env T (tcpSendRequest env T args self).1
            (tcpSendRequest env T args self).2).2).1 = .ok ()) ∧
    (∀ v, (executeCommand env T args self).1 = .ok v →
      v = (env.network.tcpSendRequest T args self.network_).1) ∧
    (∀ e, (executeCommand env T args self).1 = .error e
      ↔ (handleCommandResponse env T
          (tcpBlockingReceiveResponse env T (tcpSendRequest env T args self).1
            (tcpSendRequest env T args self).2).1
          (tcpBlockingReceiveResponse env T (tcpSendRequest env T args self).1
            (tcpSendRequest env T args self).2).2).1 = .error e)) ∧
    (((∃ v, (executeCommand_GetCartesianLimit env kName is_setter id cuboid self).1.1
          = .ok v)
      ↔ (handleCommandResponse env (.base kName is_setter)
          ⟨(tcpBlockingReceiveResponseGetCartesianLimit env (.base kName is_setter)
            (tcpSendRequest env (.base kName is_setter) [id] self).1
            (tcpSendRequest env (.base kName is_setter) [id] self).2).1.status⟩
          (tcpBlockingReceiveResponseGetCartesianLimit env (.base kName is_setter)
            (tcpSendRequest env (.base kName is_setter) [id] self).1
            (tcpSendRequest env (.base kName is_setter) [id] self).2).2).1 = .ok ()) ∧
    (∀ v, (executeCommand_GetCartesianLimit env kName is_setter id cuboid self).1.1
        = .ok v →
      v = (env.network.tcpSendRequest (.base kName is_setter) [id] self.network_).1) ∧
    (∀ e, (executeCommand_GetCartesianLimit env kName is_setter id cuboid self).1.1
        = .error e
      ↔ (handleCommandResponse env (.base kName is_setter)
          ⟨(tcpBlockingReceiveResponseGetCartesianLimit env (.base kName is_setter)
            (tcpSendRequest env (.base kName is_setter) [id] self).1
            (tcpSendRequest env (.base kName is_setter) [id] self).2).1.status⟩
          (tcpBlockingReceiveResponseGetCartesianLimit env (.base kName is_setter)
            (tcpSendRequest env (.base kName is_setter) [id] self).1
            (tcpSendRequest env (.base kName is_setter) [id] self).2).2).1 = .error e)) := by
  have hid : (env.network.tcpSendRequest T args self.network_).1
      = (tcpSendRequest env T args self).1 := rfl
  have hid2 : (env.network.tcpSendRequest (.base kName is_setter) [id] self.network_).1
      = (tcpSendRequest env (.base kName is_setter) [id] self).1 := rfl
  rw [executeCommand_outcome, executeCommand_GetCartesianLimit_outcome, hid, hid2]
  constructor
  · generalize (handleCommandResponse env T _ _).1 = r
    generalize (tcpSendRequest env T args self).1 = command_id
    rcases r with e | ⟨⟨⟩⟩
    · simp
    · refine ⟨⟨fun _ => rfl, fun _ => ⟨command_id, rfl⟩⟩, ?_, ?_⟩
      · intro v hv
        exact (Except.ok.inj hv).symm
      · intro e
        constructor <;> intro he <;> cases he
  · generalize (handleCommandResponse env (.base kName is_setter) _ _).1 = r
    generalize (tcpSendRequest env (.base kName is_setter) [id] self).1 = command_id
    rcases r with e | ⟨⟨⟩⟩
    · simp
    · refine ⟨⟨fun _ => rfl, fun _ => ⟨command_id, rfl⟩⟩, ?_, ?_⟩
      · intro v hv
        exact (Except.ok.inj hv).symm
      · intro e
        constructor <;> intro he <;> cases he

/-- The object after `executeCommand` is the object after its two transport calls. -/
theorem executeCommand_state {σ : Type} (env : Env σ) (T : CommandKind) (args : Args)
    (self : Impl σ) :
    (executeCommand env T args self).2 =
      (tcpBlockingReceiveResponse env T (tcpSendRequest env T args self).1
        (tcpSendRequest env T args self).2).2 := by
  have hs := handleCommandResponse_state env T
    (tcpBlockingReceiveResponse env T (tcpSendRequest env T args self).1
      (tcpSendRequest env T args self).2).1
    (tcpBlockingReceiveResponse env T (tcpSendRequest env T args self).1
      (tcpSendRequest env T args self).2).2
  simp only [executeCommand]
  split <;> rename_i h <;> rw [h] at hs <;> exact hs

/-- The object after the `GetCartesianLimit` variant of `executeCommand` is the object
after its two transport calls. -/
theorem executeCommand_GetCartesianLimit_state {σ : Type} (env : Env σ) (kName : String)
    (is_setter : Bool) (id : Int) (cuboid : VirtualWallCuboid) (self : Impl σ) :
    (executeCommand_GetCartesianLimit env kName is_setter id cuboid self).1.2 =
      (tcpBlockingReceiveResponseGetCartesianLimit env (.base kName is_setter)
        (tcpSendRequest env (.base kName is_setter) [id] self).1
        (tcpSendRequest env (.base kName is_setter) [id] self).2).2 := by
  have hs := handleCommandResponse_state env (.base kName is_setter)
    ⟨(tcpBlockingReceiveResponseGetCartesianLimit env (.base kName is_setter)
      (tcpSendRequest env (.base kName is_setter) [id] self).1
      (tcpSendRequest env (.base kName is_setter) [id] self).2).1.status⟩
    (tcpBlockingReceiveResponseGetCartesianLimit env (.base kName is_setter)
      (tcpSendRequest env (.base kName is_setter) [id] self).1
      (tcpSendRequest env (.base kName is_setter) [id] self).2).2
  simp only [executeCommand_GetCartesianLimit]
  split <;> rename_i h <;> rw [h] at hs <;> exact hs

/-- C7: for the `GetCartesianLimit` query, for every requested id, every prior content
of the caller's record and every response the transport delivers, when
`executeCommand` is left (by `return` or by an exception) the record holds the
response's `object_frame`, `object_p_max`, `object_p_min` and `object_activation` in
`p_frame`, `p_max`, `p_min` and `active`, and the requested id in `id`. -/
theorem executeCommand_GetCartesianLimit_populates {σ : Type} (env : Env σ)
    (kName : String) (is_setter : Bool) (id : Int) (cuboid : VirtualWallCuboid)
    (self : Impl σ) :
    (executeCommand_GetCartesianLimit env kName is_setter id cuboid self).2 =
      { id := id
        p_frame := (env.network.tcpBlockingReceiveResponseGetCartesianLimit
          (.base kName is_setter) (env.network.tcpSendRequest (.base kName is_setter) [id]
            self.network_).1 (env.network.tcpSendRequest (.base kName is_setter) [id]
            self.network_).2).1.object_frame
        p_min := (env.network.tcpBlockingReceiveResponseGetCartesianLimit
          (.base kName is_setter) (env.network.tcpSendRequest (.base kName is_setter) [id]
            self.network_).1 (env.network.tcpSendRequest (.base kName is_setter) [id]
            self.network_).2).1.object_p_min
        p_max := (env.network.tcpBlockingReceiveResponseGetCartesianLimit
          (.base kName is_setter) (env.network.tcpSendRequest (.base kName is_setter) [id]
            self.network_).1 (env.network.tcpSendRequest (.base kName is_setter) [id]
            self.network_).2).1.object_p_max
        active := (env.network.tcpBlockingReceiveResponseGetCartesianLimit
          (.base kName is_setter) (env.network.tcpSendRequest (.base kName is_setter) [id]
            self.network_).1 (env.network.tcpSendRequest (.base kName is_setter) [id]
            self.network_).2).1.object_activation } := by
  simp only [executeCommand_GetCartesianLimit]
  split <;> rfl

/-- An instance of `executeCommand_GetCartesianLimit_populates` in which the call
raises: the response has status invalid-argument-rejected, the call for id `3` raises
`ProtocolException`, and the record, all zero before, holds the payload and the id. -/
theorem executeCommand_GetCartesianLimit_populates_on_exception :
    (executeCommand_GetCartesianLimit (sampleEnv .kInvalidArgumentRejected)
        "Get Cartesian Limit" false 3 ⟨0, [], [], [], false⟩ (sampleImpl 0)).1.1
      = .error (.ProtocolException
          "libfranka: Unexpected response while handling Get Cartesian Limit command!") ∧
    (executeCommand_GetCartesianLimit (sampleEnv .kInvalidArgumentRejected)
        "Get Cartesian Limit" false 3 ⟨0, [], [], [], false⟩ (sampleImpl 0)).2
      = ⟨3, [1, 0, 0, 0, 0, 1, 0, 0, 0, 0, 1, 0, 0, 0, 0, 1], [2, 3, 4], [5, 6, 7], true⟩ :=
  ⟨rfl, executeCommand_GetCartesianLimit_populates (sampleEnv .kInvalidArgumentRejected)
    "Get Cartesian Limit" false 3 ⟨0, [], [], [], false⟩ (sampleImpl 0)⟩

/-- C8: one call of `executeCommand`, generic or `GetCartesianLimit` variant, adds to
the operations performed on the transport exactly one send followed by exactly one
blocking receive keyed by the command id that this send returned, whatever the status
of the response. -/
theorem executeCommand_transport_trace {σ : Type} (env : Env σ) (T : CommandKind)
    (args : Args) (kName : String) (is_setter : Bool) (id : Int)
    (cuboid : VirtualWallCuboid) (self : Impl σ) :
    (executeCommand env T args self).2.network_log =
      self.network_log ++
        [NetOp.tcpSendRequest T args (env.network.tcpSendRequest T args self.network_).1,
         NetOp.tcpBlockingReceiveResponse T
           (env.network.tcpSendRequest T args self.network_).1] ∧
    (executeCommand_GetCartesianLimit env kName is_setter id cuboid self).1.2.network_log =
      self.network_log ++
        [NetOp.tcpSendRequest (.base kName is_setter) [id]
           (env.network.tcpSendRequest (.base kName is_setter) [id] self.network_).1,
         NetOp.tcpBlockingReceiveResponse (.base kName is_setter)
           (env.network.tcpSendRequest (.base kName is_setter) [id] self.network_).1] := by
  rw [executeCommand_state, executeCommand_GetCartesianLimit_state]
  simp [tcpBlockingReceiveResponse, tcpBlockingReceiveResponseGetCartesianLimit,
    tcpSendRequest]

/-! ## The motion lifecycle and the protocol state -/

/-- C9: while an ActiveMotion is recorded as running, when the `Move` response that
`finishMotion` awaits for its motion id has status emergency-aborted, `finishMotion`
raises the `CommandException` whose message is
"libfranka: <name of Move> command aborted: User Stop pressed!", and after the
exception the ActiveMotion is absent: no motion is recorded as running and the
lifecycle is Idle. -/
theorem finishMotion_emergency_aborted_clears {σ : Type} (transport : Transport σ)
    (kName : String) (motion_command control_command : Option Args)
    (self : Lifecycle σ) (m : ActiveMotion)
    (hactive : self.active_motion = some m)
    (hstatus : (transport.network.tcpBlockingReceiveResponse (.Move kName) m.motion_id
        (transport.sendCommandPair motion_command control_command
          self.impl.network_)).1.status = .kEmergencyAborted) :
    self.motionGeneratorRunning = true ∧
    (finishMotion transport kName m.motion_id motion_command control_command self).1
      = .error (.CommandException
          ("libfranka: " ++ kName ++ " command aborted: User Stop pressed!")) ∧
    (finishMotion transport kName m.motion_id motion_command control_command
      self).2.active_motion = none ∧
    (finishMotion transport kName m.motion_id motion_command control_command
      self).2.motionGeneratorRunning = false ∧
    (finishMotion transport kName m.motion_id motion_command control_command
      self).2.state = .Idle := by
  refine ⟨by simp [Lifecycle.motionGeneratorRunning, hactive], ?_, rfl, rfl, rfl⟩
  simp only [finishMotion, tcpBlockingReceiveResponse]
  generalize (transport.network.tcpBlockingReceiveResponse (.Move kName) m.motion_id
    (transport.sendCommandPair motion_command control_command self.impl.network_)).1
    = response at hstatus ⊢
  obtain ⟨st⟩ := response
  cases hstatus
  rfl

/-- Witness of `finishMotion_emergency_aborted_clears`: the sample lifecycle is Running
with the ActiveMotion of `motion_id = 7`, the `Move` response for id `7` has status
emergency-aborted, `finishMotion(7, ...)` raises the `CommandException` of the User
Stop, and afterwards the ActiveMotion is absent. -/
theorem finishMotion_emergency_aborted_clears_witness :
    (sampleLifecycle.state = .Running ∧
      sampleLifecycle.active_motion = some ⟨7, 1, 0, [], []⟩) ∧
    sampleLifecycle.motionGeneratorRunning = true ∧
    (finishMotion (sampleTransport .kEmergencyAborted) "Move" 7 (some [1]) (some [2])
        sampleLifecycle).1
      = .error (.CommandException "libfranka: Move command aborted: User Stop pressed!") ∧
    (finishMotion (sampleTransport .kEmergencyAborted) "Move" 7 (some [1]) (some [2])
        sampleLifecycle).2.active_motion = none ∧
    (finishMotion (sampleTransport .kEmergencyAborted) "Move" 7 (some [1]) (some [2])
        sampleLifecycle).2.motionGeneratorRunning = false ∧
    (finishMotion (sampleTransport .kEmergencyAborted) "Move" 7 (some [1]) (some [2])
        sampleLifecycle).2.state = .Idle :=
  ⟨⟨rfl, rfl⟩,
   finishMotion_emergency_aborted_clears (sampleTransport .kEmergencyAborted) "Move"
     (some [1]) (some [2]) sampleLifecycle ⟨7, 1, 0, [], []⟩ rfl rfl⟩

/-- C10: status interpretation never changes the protocol state: for every command
type, response and object, `handleCommandResponse` leaves the object, hence
`motion_generator_mode_`, `controller_mode_` and `message_id_`, as it was, whether it
returns or raises; and a whole call of `executeCommand`, generic or
`GetCartesianLimit` variant, ends in the state its two transport calls produced, with
these three members as they were before the call. -/
theorem handleCommandResponse_preserves_protocol_state {σ : Type} (env : Env σ)
    (T : CommandKind) (response : Response) (args : Args) (kName : String)
    (is_setter : Bool) (id : Int) (cuboid : VirtualWallCuboid) (self : Impl σ) :
    ((handleCommandResponse env T response self).2 = self ∧
      (handleCommandResponse env T response self).2.motion_generator_mode_
        = self.motion_generator_mode_ ∧
      (handleCommandResponse env T response self).2.controller_mode_
        = self.controller_mode_ ∧
      (handleCommandResponse env T response self).2.message_id_ = self.message_id_) ∧
    ((executeCommand env T args self).2
        = (tcpBlockingReceiveResponse env T (tcpSendRequest env T args self).1
            (tcpSendRequest env T args self).2).2 ∧
      (executeCommand env T args self).2.motion_generator_mode_
        = self.motion_generator_mode_ ∧
      (executeCommand env T args self).2.controller_mode_ = self.controller_mode_ ∧
      (executeCommand env T args self).2.message_id_ = self.message_id_) ∧
    ((executeCommand_GetCartesianLimit env kName is_setter id cuboid self).1.2
        = (tcpBlockingReceiveResponseGetCartesianLimit env (.base kName is_setter)
            (tcpSendRequest env (.base kName is_setter) [id] self).1
            (tcpSendRequest env (.base kName is_setter) [id] self).2).2 ∧
      (executeCommand_GetCartesianLimit env kName is_setter id cuboid
        self).1.2.motion_generator_mode_ = self.motion_generator_mode_ ∧
      (executeCommand_GetCartesianLimit env kName is_setter id cuboid
        self).1.2.controller_mode_ = self.controller_mode_ ∧
      (executeCommand_GetCartesianLimit env kName is_setter id cuboid
        self).1.2.message_id_ = self.message_id_) := by
  rw [handleCommandResponse_state, executeCommand_state,
    executeCommand_GetCartesianLimit_state]
  exact ⟨⟨rfl, rfl, rfl, rfl⟩, ⟨rfl, rfl, rfl, rfl⟩, ⟨rfl, rfl, rfl, rfl⟩⟩

/-! ## What the outcome of status interpretation depends on -/

/-- C11: the outcome of status interpretation (return, `CommandException` or
`ProtocolException`, with its message) is determined by the command type, the status
and the value of `motionGeneratorRunning()`: two objects, even of different
transports, with the same running flag get the same outcome.  For a command type other
than `Move` the outcome is the same in any two states, and so it is for a `Move`
response whose status is not motion-started; for a `Move` response with status
motion-started two states with different running flags get different outcomes. -/
theorem handleCommandResponse_outcome_dependence {σ τ : Type} (env1 : Env σ)
    (env2 : Env τ) (T : CommandKind) (response : Response) (self1 : Impl σ)
    (self2 : Impl τ) :
    (env1.motionGeneratorRunning self1 = env2.motionGeneratorRunning self2 →
      (handleCommandResponse env1 T response self1).1
        = (handleCommandResponse env2 T response self2).1) ∧
    (∀ kName is_setter,
      (handleCommandResponse env1 (.base kName is_setter) response self1).1
        = (handleCommandResponse env2 (.base kName is_setter) response self2).1) ∧
    (∀ kName, response.status ≠ .kMotionStarted →
      (handleCommandResponse env1 (.Move kName) response self1).1
        = (handleCommandResponse env2 (.Move kName) response self2).1) ∧
    (∀ kName, env1.motionGeneratorRunning self1 ≠ env2.motionGeneratorRunning self2 →
      (handleCommandResponse env1 (.Move kName) ⟨.kMotionStarted⟩ self1).1
        ≠ (handleCommandResponse env2 (.Move kName) ⟨.kMotionStarted⟩ self2).1) := by
  obtain ⟨st⟩ := response
  refine ⟨?_, ?_, ?_, ?_⟩
  · intro h
    rcases T with kName | ⟨kName, _ | _⟩
    · cases st <;>
        simp [handleCommandResponse, handleCommandResponse_Move, M.ret, M.raise, h]
      cases env2.motionGeneratorRunning self2 <;> rfl
    · cases st <;>
        simp [handleCommandResponse, handleBaseCommandResponse_false, M.ret, M.raise]
    · cases st <;>
        simp [handleCommandResponse, handleBaseCommandResponse_true, M.ret, M.raise]
  · intro kName is_setter
    cases is_setter
    · cases st <;>
        simp [handleCommandResponse, handleBaseCommandResponse_false, M.ret, M.raise]
    · cases st <;>
        simp [handleCommandResponse, handleBaseCommandResponse_true, M.ret, M.raise]
  · intro kName hst
    cases st <;>
      first
        | exact absurd rfl hst
        | simp [handleCommandResponse, handleCommandResponse_Move, M.ret, M.raise]
  · intro kName hne
    cases h1 : env1.motionGeneratorRunning self1 <;>
      cases h2 : env2.motionGeneratorRunning self2 <;>
      simp [handleCommandResponse, handleCommandResponse_Move, M.ret, M.raise, h1, h2] at hne ⊢

/-- An instance of `handleCommandResponse_outcome_dependence`: the sample objects with
`motion_generator_mode_ = 0` (idle) and `motion_generator_mode_ = 1` (running) get the
same outcome for a reflex-aborted `Move` response and for an invalid-argument-rejected
response of a setter, and different outcomes for a motion-started `Move` response. -/
theorem handleCommandResponse_outcome_dependence_witness :
    (handleCommandResponse (sampleEnv .kSuccess) (.Move "Move") ⟨.kReflexAborted⟩
        (sampleImpl 0)).1
      = (handleCommandResponse (sampleEnv .kSuccess) (.Move "Move") ⟨.kReflexAborted⟩
        (sampleImpl 1)).1 ∧
    (handleCommandResponse (sampleEnv .kSuccess) (.base "Set Collision Behavior" true)
        ⟨.kInvalidArgumentRejected⟩ (sampleImpl 0)).1
      = (handleCommandResponse (sampleEnv .kSuccess) (.base "Set Collision Behavior" true)
        ⟨.kInvalidArgumentRejected⟩ (sampleImpl 1)).1 ∧
    (handleCommandResponse (sampleEnv .kSuccess) (.Move "Move") ⟨.kMotionStarted⟩
        (sampleImpl 0)).1
      ≠ (handleCommandResponse (sampleEnv .kSuccess) (.Move "Move") ⟨.kMotionStarted⟩
        (sampleImpl 1)).1 :=
  ⟨(handleCommandResponse_outcome_dependence (sampleEnv .kSuccess) (sampleEnv .kSuccess)
      (.Move "Move") ⟨.kReflexAborted⟩ (sampleImpl 0) (sampleImpl 1)).2.2.1 "Move"
      (by decide),
   (handleCommandResponse_outcome_dependence (sampleEnv .kSuccess) (sampleEnv .kSuccess)
      (.Move "Move") ⟨.kInvalidArgumentRejected⟩ (sampleImpl 0) (sampleImpl 1)).2.1
      "Set Collision Behavior" true,
   (handleCommandResponse_outcome_dependence (sampleEnv .kSuccess) (sampleEnv .kSuccess)
      (.Move "Move") ⟨.kMotionStarted⟩ (sampleImpl 0) (sampleImpl 1)).2.2.2 "Move"
      (by decide)⟩

end franka
